import Mathlib

/-!
Shallow embedding of the package-conflict resolver
(`solution.py`, class EnhancedAIConflictResolver, and `runthis.py`,
function safe_json_parse).

External collaborators (the subprocess shell, the wall clock, and the
advisory oracle reached through the imported LLM module) are modelled as
an explicit environment value of an abstract type that every call threads
through, so that runs are deterministic Lean computations while the
outcomes of commands and consultations stay arbitrary.
-/

namespace PPD

/-- One entry of `self.execution_log` (solution.py, lines 145-152). -/
structure LogEntry where
  command : String
  success : Bool
  output : String
  exit_code : Int
  timestamp : String
  description : String
deriving DecidableEq

/-- One entry of `self.solution_history` (solution.py, lines 359-364). -/
structure HistEntry where
  solution_num : Nat
  description : String
  commands : List String
  timestamp : String
deriving DecidableEq

/-- One entry of the `failed_commands` list built by `apply_solution`
(solution.py, lines 391-395). -/
structure FailedCmd where
  command : String
  output : String
  exit_code : Int
deriving DecidableEq

/-- A recommended solution dictionary, with the fields the resolver reads.
Each field stands for `solution.get(key, default)` with the default of the
corresponding access in the source. -/
structure Solution where
  solution_type : String
  priority : Int
  description : String
  undo_commands : List String
  commands : List String
  verification_command : Option String
deriving DecidableEq

/-- The decoded consultation payload, with the two fields the resolution
loop inspects. `none` in `recommended_solutions` models the key being
absent (the loop tests membership); `should_continue` is read through
`.get(.., True)`. -/
structure Payload where
  recommended_solutions : Option (List Solution)
  should_continue : Option Bool
deriving DecidableEq

/-- The initial diagnosis loaded from the input JSON file, with the fields
`continuous_resolution_loop` reads. -/
structure Diagnosis where
  overall_status : Option String
  summary : Option String
  recommended_solutions : List Solution
deriving DecidableEq

/-- The mutable fields of EnhancedAIConflictResolver (solution.py,
lines 27-36). -/
structure Resolver where
  execution_log : List LogEntry
  max_ai_iterations : Nat
  ai_consultation_count : Nat
  web_search_count : Nat
  solved : Bool
  solution_history : List HistEntry
deriving DecidableEq

/-- State of EnhancedAIConflictResolver.__init__ (solution.py, lines 27-36). -/
def initResolver (maxAI : Nat) : Resolver :=
  { execution_log := []
    max_ai_iterations := maxAI
    ai_consultation_count := 0
    web_search_count := 0
    solved := false
    solution_history := [] }

/-- Outcome of one `subprocess.run` call as `execute_command` observes it:
normal completion with a return code and captured streams, the
`subprocess.TimeoutExpired` path, or any other raised exception rendered
as its message string. -/
inductive CmdOutcome where
  | completed (returncode : Int) (out_stdout out_stderr : String)
  | timedOut
  | raised (msg : String)
deriving DecidableEq

/-- The external world: running a shell command, reading the clock
(`time.strftime`), and one full oracle round trip (the `addhistory` call
plus the response extraction of solution.py lines 285-341, which yields
either a decoded payload or nothing). -/
structure Env (ε : Type) where
  runCmd : ε → String → CmdOutcome × ε
  now : ε → String
  oracle : ε → Option Payload × ε

/-- Python `str.lower()`, restricted to the character mapping. -/
def pyLower (s : String) : String := ⟨s.data.map Char.toLower⟩

/-- Tests whether `pat` is an initial segment of `s`. -/
def headMatches : List Char → List Char → Bool
  | [], _ => true
  | _ :: _, [] => false
  | a :: as, b :: bs => a == b && headMatches as bs

/-- Tests whether `pat` occurs contiguously somewhere in `s`
(the Python `in` operator on strings). -/
def occursIn (pat : List Char) : List Char → Bool
  | [] => pat.isEmpty
  | c :: rest => headMatches pat (c :: rest) || occursIn pat rest

/-- The fixed failure markers of solution.py line 136. -/
def failure_markers : List String := ["error:", "failed", "could not", "conflict"]

/-- The textual failure heuristic of solution.py line 136:
`any(err in output.lower() for err in [...])`. -/
def hasErrorMarker (output : String) : Bool :=
  failure_markers.any (fun err => occursIn err.data (pyLower output).data)

/-- EnhancedAIConflictResolver.execute_command (solution.py, lines 117-161),
as a function of the observed subprocess outcome and the current clock
reading. Returns the (success, output) pair of the source together with the
updated resolver state. On timeout or on a raised exception the source
returns from inside the except clause, before the `execution_log.append`
statement is reached. -/
def execute_command (outcome : CmdOutcome) (ts : String) (r : Resolver)
    (cmd desc : String) : Bool × String × Resolver :=
  match outcome with
  | .completed code so se =>
    let output := so ++ se
    let success := code == 0
    let has_error := hasErrorMarker output
    let actual_success := success && !has_error
    let entry : LogEntry :=
      { command := cmd, success := actual_success, output := output
        exit_code := code, timestamp := ts, description := desc }
    (actual_success, output, { r with execution_log := r.execution_log ++ [entry] })
  | .timedOut => (false, "Command timeout", r)
  | .raised msg => (false, msg, r)

/-- execute_command with the subprocess outcome and timestamp supplied by
the environment. -/
def exec_cmd {ε : Type} (E : Env ε) (st : Resolver × ε) (cmd desc : String) :
    Bool × String × (Resolver × ε) :=
  let p := E.runCmd st.2 cmd
  let q := execute_command p.1 (E.now p.2) st.1 cmd desc
  (q.1, q.2.1, (q.2.2, p.2))

/-- Python `str.find(c)`: index of the first occurrence, `-1` if absent
(runthis.py line 40). -/
def pyFind (s : String) (c : Char) : Int :=
  match s.data.findIdx? (· == c) with
  | some i => (i : Int)
  | none => -1

/-- Python `str.rfind(c)`: index of the last occurrence, `-1` if absent
(runthis.py line 41). -/
def pyRfind (s : String) (c : Char) : Int :=
  match s.data.reverse.findIdx? (· == c) with
  | some i => (s.data.length : Int) - 1 - i
  | none => -1

/-- Python slice `s[a:b]` for `0 ≤ a ≤ b`. -/
def strSlice (s : String) (a b : Nat) : String := ⟨(s.data.drop a).take (b - a)⟩

/-- The structured error dictionary built by safe_json_parse when both
parse attempts fail (runthis.py, lines 49-56). The two list fields that
are constant empty lists of dictionaries in the source are omitted; the
fields a claim mentions are kept verbatim. -/
structure ErrSentinel where
  overall_status : String
  summary : String
  prevention_tips : List String
  raw_response : String
deriving DecidableEq

/-- The sentinel value returned by safe_json_parse on double failure. -/
def mkSentinel (text : String) : ErrSentinel :=
  { overall_status := "critical_error"
    summary := "Failed to parse LLM response as JSON"
    prevention_tips := ["Ensure LLM returns valid JSON format"]
    raw_response := text }

/-- Result of safe_json_parse: either a parsed JSON value or the sentinel. -/
inductive DecodeOut (J : Type) where
  | ok (v : J)
  | err (s : ErrSentinel)
deriving DecidableEq

/-- safe_json_parse (runthis.py, lines 32-56). The Python stdlib
`json.loads` is external to the repository and is passed in as an abstract
parser `parse` returning `none` exactly when `json.loads` would raise
`json.JSONDecodeError` (any exception of the inner attempt is caught by
the bare except and also falls through to the sentinel). -/
def safe_json_parse {J : Type} (parse : String → Option J) (text : String) :
    DecodeOut J :=
  match parse text with
  | some v => .ok v
  | none =>
    let start := pyFind text '{'
    let stop := pyRfind text '}' + 1
    if start != -1 && stop > start then
      match parse (strSlice text start.toNat stop.toNat) with
      | some v => .ok v
      | none => .err (mkSentinel text)
    else .err (mkSentinel text)

/-- EnhancedAIConflictResolver.trigger_web_search_consultation
(solution.py, lines 163-341). The early `HAS_AI` and budget guards and the
two counter increments are translated directly; the prompt construction
and the `addhistory` round trip with its response extraction (all of whose
observable effect on the resolver is the returned optional payload) are
the abstract `oracle` step of the environment. -/
def trigger_web_search_consultation {ε : Type} (E : Env ε) (hasAI : Bool)
    (st : Resolver × ε) : Option Payload × (Resolver × ε) :=
  if !hasAI then (none, st)
  else if st.1.max_ai_iterations ≤ st.1.ai_consultation_count then (none, st)
  else
    let r := { st.1 with
      ai_consultation_count := st.1.ai_consultation_count + 1
      web_search_count := st.1.web_search_count + 1 }
    let p := E.oracle st.2
    (p.1, (r, p.2))

/-- The undo loop of apply_solution (solution.py, lines 367-372): each undo
command is executed best-effort, only for its state effects. -/
def runUndo {ε : Type} (E : Env ε) : List String → (Resolver × ε) → Resolver × ε
  | [], st => st
  | c :: cs, st => runUndo E cs (exec_cmd E st c "Undo previous changes").2.2

/-- The main command loop of apply_solution (solution.py, lines 384-397):
every command runs; a failing one flips `all_success` and is collected
into `failed_commands` with the constant exit code 1 of line 394. -/
def runCommands {ε : Type} (E : Env ε) :
    List String → Bool → List FailedCmd → (Resolver × ε) →
    Bool × List FailedCmd × (Resolver × ε)
  | [], ok, failed, st => (ok, failed, st)
  | c :: cs, ok, failed, st =>
    let q := exec_cmd E st c ""
    if q.1 then runCommands E cs ok failed q.2.2
    else runCommands E cs false
      (failed ++ [{ command := c, output := q.2.1, exit_code := 1 }]) q.2.2

/-- EnhancedAIConflictResolver.apply_solution (solution.py, lines 343-417).
Returns the (success, failed_commands) pair together with the updated
state. The history entry is appended first (line 359), then the undo
commands run, then the type test of line 377 decides between the command
loop plus optional verification and the non-command early return of
line 417. A truthy `verification_command` (present and non-empty) gates
the verification run of lines 400-411. -/
def apply_solution {ε : Type} (E : Env ε) (st : Resolver × ε) (sol : Solution)
    (num : Nat) : (Bool × List FailedCmd) × (Resolver × ε) :=
  let hist : HistEntry :=
    { solution_num := num, description := sol.description
      commands := sol.commands, timestamp := E.now st.2 }
  let st1 : Resolver × ε :=
    ({ st.1 with solution_history := st.1.solution_history ++ [hist] }, st.2)
  let st2 := runUndo E sol.undo_commands st1
  if sol.solution_type == "commands" then
    if sol.commands.isEmpty then ((false, []), st2)
    else
      let q := runCommands E sol.commands true [] st2
      let all_success := q.1
      let failed := q.2.1
      let st3 := q.2.2
      if all_success then
        match sol.verification_command with
        | some vc =>
          if vc == "" then ((true, failed), st3)
          else
            let v := exec_cmd E st3 vc "Verify solution"
            if v.1 then ((true, failed), ({ v.2.2.1 with solved := true }, v.2.2.2))
            else ((false, failed), v.2.2)
        | none => ((true, failed), st3)
      else ((false, failed), st3)
  else ((false, []), st2)

/-- Result of one full pass over the active solution queue (the for loop of
solution.py, lines 470-498): either the early `return True` of line 492
(after `self.solved = True`), or the accumulated pass counters. -/
inductive PassOut (ε : Type) where
  | solvedNow (st : Resolver × ε)
  | done (success_count : Nat) (consecutive_failures : Nat)
      (all_failed : List FailedCmd) (st : Resolver × ε)
deriving DecidableEq

/-- The for loop of solution.py, lines 470-498. `i` is the 1-based
enumeration index; a successful application resets `consecutive_failures`
to 0 and triggers the final `pip check` verification, whose success ends
the run solved. -/
def applyPass {ε : Type} (E : Env ε) :
    List Solution → Nat → Nat → Nat → List FailedCmd → (Resolver × ε) → PassOut ε
  | [], _, succ, cf, failed, st => .done succ cf failed st
  | sol :: rest, i, succ, cf, failed, st =>
    let a := apply_solution E st sol i
    if a.1.1 then
      let v := exec_cmd E a.2 "pip check" "Final dependency check"
      if v.1 then .solvedNow ({ v.2.2.1 with solved := true }, v.2.2.2)
      else applyPass E rest (i + 1) (succ + 1) 0 failed v.2.2
    else applyPass E rest (i + 1) succ (cf + 1) (failed ++ a.1.2) a.2

/-- Result of one body of the while loop of solution.py, lines 453-557:
either a return / break with the final boolean, or another round with a
possibly replaced queue and updated consecutive-failure counter. -/
inductive IterOut (ε : Type) where
  | ret (b : Bool) (st : Resolver × ε)
  | next (sols : List Solution) (cf : Nat) (st : Resolver × ε)
deriving DecidableEq

/-- One body of the while loop of solution.py, lines 453-557: the empty
queue break of line 464, the pass over the queue, and on a zero-success
pass with AI available the consultation of lines 511-553 - a non-empty
filtered batch of new solutions is installed with `continue` (line 542),
skipping the should_continue test; otherwise an explicit
`should_continue = false` breaks (lines 549-553). With zero successes and
no AI the loop breaks at line 557. -/
def loop_iter {ε : Type} (E : Env ε) (hasAI : Bool) (sols : List Solution)
    (cf : Nat) (st : Resolver × ε) : IterOut ε :=
  if sols.isEmpty then .ret false st
  else
    match applyPass E sols 1 0 cf [] st with
    | .solvedNow st1 => .ret true st1
    | .done succ cf1 _failed st1 =>
      if succ == 0 && hasAI then
        let c := trigger_web_search_consultation E hasAI st1
        match c.1 with
        | some p =>
          match p.recommended_solutions with
          | some lst =>
            let news := lst.filter (fun s => s.solution_type == "commands")
            if !news.isEmpty then .next news 0 c.2
            else if !(p.should_continue.getD true) then .ret false c.2
            else .next sols cf1 c.2
          | none =>
            if !(p.should_continue.getD true) then .ret false c.2
            else .next sols cf1 c.2
        | none => .next sols cf1 c.2
      else if succ == 0 then .ret false st1
      else .next sols cf1 st1

/-- The while loop of solution.py, lines 453-557, driven by the remaining
iteration budget (`max_total_iterations - iteration`, initially 20). The
condition of line 453 rechecks `self.solved` before every body. Falling
out of the loop reaches the final `return False` of line 572. -/
def loopAux {ε : Type} (E : Env ε) (hasAI : Bool) :
    Nat → List Solution → Nat → (Resolver × ε) → Bool × (Resolver × ε)
  | 0, _, _, st => (false, st)
  | fuel + 1, sols, cf, st =>
    if st.1.solved then (false, st)
    else
      match loop_iter E hasAI sols cf st with
      | .ret b st1 => (b, st1)
      | .next sols1 cf1 st1 => loopAux E hasAI fuel sols1 cf1 st1

/-- Stable insertion of a solution into a priority-sorted list, placing it
before the first strictly larger priority. -/
def insertSorted (s : Solution) : List Solution → List Solution
  | [] => [s]
  | t :: ts => if s.priority ≤ t.priority then s :: t :: ts else t :: insertSorted s ts

/-- The stable ascending sort by priority of solution.py line 441
(`solutions.sort(key=lambda x: x.get("priority", 999))`; Python list sort
is stable, and a stable sort by the same key is unique). -/
def sortByPriority : List Solution → List Solution
  | [] => []
  | s :: ss => insertSorted s (sortByPriority ss)

/-- EnhancedAIConflictResolver.continuous_resolution_loop (solution.py,
lines 419-572). `data = none` models a failed `load_json` (line 421);
the success short-circuit is line 426, the empty-solutions return is
line 437, the filter and sort are lines 440-441, and the while loop runs
with `max_total_iterations = 20` and `consecutive_failures = 0`. -/
def continuous_resolution_loop {ε : Type} (E : Env ε) (hasAI : Bool)
    (data : Option Diagnosis) (st : Resolver × ε) : Bool × (Resolver × ε) :=
  match data with
  | none => (false, st)
  | some d =>
    if d.overall_status == some "success" then (true, st)
    else if d.recommended_solutions.isEmpty then (false, st)
    else
      let sols := sortByPriority
        (d.recommended_solutions.filter (fun s => s.solution_type == "commands"))
      loopAux E hasAI 20 sols 0 st

/-- The `resolution_status` field written by save_execution_log
(solution.py, line 579). -/
def resolution_status (r : Resolver) : String :=
  if r.solved then "SOLVED" else "INCOMPLETE"

/-- The process exit code of main (solution.py, line 672):
`sys.exit(0 if success else 1)` where `success` is the value returned by
continuous_resolution_loop on a fresh resolver. -/
def mainExitCode {ε : Type} (E : Env ε) (hasAI : Bool) (data : Option Diagnosis)
    (maxAI : Nat) (e0 : ε) : Nat :=
  if (continuous_resolution_loop E hasAI data (initResolver maxAI, e0)).1 then 0 else 1

/-- The resolver state at the end of main, the one save_execution_log
serializes (solution.py, line 656). -/
def mainFinalResolver {ε : Type} (E : Env ε) (hasAI : Bool)
    (data : Option Diagnosis) (maxAI : Nat) (e0 : ε) : Resolver :=
  (continuous_resolution_loop E hasAI data (initResolver maxAI, e0)).2.1

/-! Concrete fixtures used to evaluate the model on closed inputs. -/

/-- An environment in which every command times out and the oracle never
answers. -/
def envTimeout : Env Unit :=
  { runCmd := fun e _ => (.timedOut, e)
    now := fun _ => "t"
    oracle := fun e => (none, e) }

/-- An environment in which every command exits with code 0 but prints a
failure marker. -/
def envMarkerFail : Env Unit :=
  { runCmd := fun e _ => (.completed 0 "error: boom" "", e)
    now := fun _ => "t"
    oracle := fun e => (none, e) }

/-- A commands-type solution with the single command cmdA. -/
def solA : Solution :=
  { solution_type := "commands", priority := 1, description := ""
    undo_commands := [], commands := ["cmdA"], verification_command := none }

/-- A commands-type solution with the single command cmdB. -/
def solB : Solution :=
  { solution_type := "commands", priority := 1, description := ""
    undo_commands := [], commands := ["cmdB"], verification_command := none }

/-- A non-commands solution. -/
def solUA : Solution :=
  { solution_type := "user_action", priority := 1, description := ""
    undo_commands := [], commands := [], verification_command := none }

/-- A payload that both proposes the actionable solution solB and sets
should_continue to false. -/
def payloadAdvise : Payload :=
  { recommended_solutions := some [solB], should_continue := some false }

/-- A payload with an empty recommendation list and should_continue
false. -/
def payloadStop : Payload :=
  { recommended_solutions := some [], should_continue := some false }

/-- An environment in which every command exits with code 1 printing x,
and whose oracle answers payloadAdvise on its first call and payloadStop
afterwards; the environment state counts oracle calls. -/
def envFailThenAdvice : Env Nat :=
  { runCmd := fun n _ => (.completed 1 "x" "", n)
    now := fun _ => "t"
    oracle := fun n => (if n == 0 then payloadAdvise else payloadStop, n + 1) }

/-- A diagnosis whose overall_status is success. -/
def diagSuccess : Diagnosis :=
  { overall_status := some "success", summary := some "ok"
    recommended_solutions := [] }

/-- A needs-attention diagnosis offering the single solution solA. -/
def diagOneSolution : Diagnosis :=
  { overall_status := some "needs_attention", summary := some "s"
    recommended_solutions := [solA] }

/-- The resolver-and-environment state carried by a pass result. -/
def passStateOf {ε : Type} : PassOut ε → Resolver × ε
  | .solvedNow st => st
  | .done _ _ _ st => st

/-- The consecutive-failures counter of a completed (not solved) pass. -/
def passCF {ε : Type} : PassOut ε → Option Nat
  | .solvedNow _ => none
  | .done _ cf _ _ => some cf

/-- The resolver-and-environment state carried by a loop body result. -/
def iterStateOf {ε : Type} : IterOut ε → Resolver × ε
  | .ret _ st => st
  | .next _ _ st => st

/-- A sequence of apply_solution calls, each threading the state of the
previous one. -/
def applyCalls {ε : Type} (E : Env ε) :
    List (Solution × Nat) → (Resolver × ε) → Resolver × ε
  | [], st => st
  | sn :: rest, st => applyCalls E rest (apply_solution E st sn.1 sn.2).2

/-- The resolver state after one failing pass over [solA] in
envFailThenAdvice, starting from initResolver 8. -/
def afterPassA : Resolver :=
  { execution_log := [⟨"cmdA", false, "x", 1, "t", ""⟩]
    max_ai_iterations := 8
    ai_consultation_count := 0
    web_search_count := 0
    solved := false
    solution_history := [⟨1, "", ["cmdA"], "t"⟩] }

/-- afterPassA after one consultation spent its budget unit. -/
def afterConsultA : Resolver :=
  { afterPassA with ai_consultation_count := 1, web_search_count := 1 }

/-- A parser that rejects every input, for evaluating the decoder on a
concrete run. -/
def parseNone : String → Option Nat := fun _ => none

/-! Frame lemmas: command execution changes neither the consultation
counters nor the solution history. -/

@[simp] theorem execute_command_count (o : CmdOutcome) (ts : String) (r : Resolver)
    (c d : String) :
    (execute_command o ts r c d).2.2.ai_consultation_count = r.ai_consultation_count := by
  cases o <;> rfl

@[simp] theorem execute_command_max (o : CmdOutcome) (ts : String) (r : Resolver)
    (c d : String) :
    (execute_command o ts r c d).2.2.max_ai_iterations = r.max_ai_iterations := by
  cases o <;> rfl

@[simp] theorem execute_command_web (o : CmdOutcome) (ts : String) (r : Resolver)
    (c d : String) :
    (execute_command o ts r c d).2.2.web_search_count = r.web_search_count := by
  cases o <;> rfl

@[simp] theorem execute_command_hist (o : CmdOutcome) (ts : String) (r : Resolver)
    (c d : String) :
    (execute_command o ts r c d).2.2.solution_history = r.solution_history := by
  cases o <;> rfl

@[simp] theorem exec_cmd_count {ε : Type} (E : Env ε) (st : Resolver × ε)
    (c d : String) :
    (exec_cmd E st c d).2.2.1.ai_consultation_count = st.1.ai_consultation_count :=
  execute_command_count _ _ _ _ _

@[simp] theorem exec_cmd_max {ε : Type} (E : Env ε) (st : Resolver × ε)
    (c d : String) :
    (exec_cmd E st c d).2.2.1.max_ai_iterations = st.1.max_ai_iterations :=
  execute_command_max _ _ _ _ _

@[simp] theorem exec_cmd_web {ε : Type} (E : Env ε) (st : Resolver × ε)
    (c d : String) :
    (exec_cmd E st c d).2.2.1.web_search_count = st.1.web_search_count :=
  execute_command_web _ _ _ _ _

@[simp] theorem exec_cmd_hist {ε : Type} (E : Env ε) (st : Resolver × ε)
    (c d : String) :
    (exec_cmd E st c d).2.2.1.solution_history = st.1.solution_history :=
  execute_command_hist _ _ _ _ _

@[simp] theorem runUndo_count {ε : Type} (E : Env ε) :
    ∀ (cs : List String) (st : Resolver × ε),
      (runUndo E cs st).1.ai_consultation_count = st.1.ai_consultation_count := by
  intro cs
  induction cs with
  | nil => intro st; rfl
  | cons c cs ih => intro st; exact (ih _).trans (exec_cmd_count _ _ _ _)

@[simp] theorem runUndo_max {ε : Type} (E : Env ε) :
    ∀ (cs : List String) (st : Resolver × ε),
      (runUndo E cs st).1.max_ai_iterations = st.1.max_ai_iterations := by
  intro cs
  induction cs with
  | nil => intro st; rfl
  | cons c cs ih => intro st; exact (ih _).trans (exec_cmd_max _ _ _ _)

@[simp] theorem runUndo_web {ε : Type} (E : Env ε) :
    ∀ (cs : List String) (st : Resolver × ε),
      (runUndo E cs st).1.web_search_count = st.1.web_search_count := by
  intro cs
  induction cs with
  | nil => intro st; rfl
  | cons c cs ih => intro st; exact (ih _).trans (exec_cmd_web _ _ _ _)

@[simp] theorem runUndo_hist {ε : Type} (E : Env ε) :
    ∀ (cs : List String) (st : Resolver × ε),
      (runUndo E cs st).1.solution_history = st.1.solution_history := by
  intro cs
  induction cs with
  | nil => intro st; rfl
  | cons c cs ih => intro st; exact (ih _).trans (exec_cmd_hist _ _ _ _)

@[simp] theorem runCommands_count {ε : Type} (E : Env ε) :
    ∀ (cs : List String) (ok : Bool) (failed : List FailedCmd) (st : Resolver × ε),
      (runCommands E cs ok failed st).2.2.1.ai_consultation_count =
        st.1.ai_consultation_count := by
  intro cs
  induction cs with
  | nil => intro ok failed st; rfl
  | cons c cs ih =>
    intro ok failed st
    simp only [runCommands]
    split <;> exact (ih _ _ _).trans (exec_cmd_count _ _ _ _)

@[simp] theorem runCommands_max {ε : Type} (E : Env ε) :
    ∀ (cs : List String) (ok : Bool) (failed : List FailedCmd) (st : Resolver × ε),
      (runCommands E cs ok failed st).2.2.1.max_ai_iterations =
        st.1.max_ai_iterations := by
  intro cs
  induction cs with
  | nil => intro ok failed st; rfl
  | cons c cs ih =>
    intro ok failed st
    simp only [runCommands]
    split <;> exact (ih _ _ _).trans (exec_cmd_max _ _ _ _)

@[simp] theorem runCommands_web {ε : Type} (E : Env ε) :
    ∀ (cs : List String) (ok : Bool) (failed : List FailedCmd) (st : Resolver × ε),
      (runCommands E cs ok failed st).2.2.1.web_search_count =
        st.1.web_search_count := by
  intro cs
  induction cs with
  | nil => intro ok failed st; rfl
  | cons c cs ih =>
    intro ok failed st
    simp only [runCommands]
    split <;> exact (ih _ _ _).trans (exec_cmd_web _ _ _ _)

@[simp] theorem runCommands_hist {ε : Type} (E : Env ε) :
    ∀ (cs : List String) (ok : Bool) (failed : List FailedCmd) (st : Resolver × ε),
      (runCommands E cs ok failed st).2.2.1.solution_history = st.1.solution_history := by
  intro cs
  induction cs with
  | nil => intro ok failed st; rfl
  | cons c cs ih =>
    intro ok failed st
    simp only [runCommands]
    split <;> exact (ih _ _ _).trans (exec_cmd_hist _ _ _ _)

@[simp] theorem apply_solution_count {ε : Type} (E : Env ε) (st : Resolver × ε)
    (sol : Solution) (num : Nat) :
    (apply_solution E st sol num).2.1.ai_consultation_count =
      st.1.ai_consultation_count := by
  simp only [apply_solution]
  repeat' split
  all_goals simp

@[simp] theorem apply_solution_max {ε : Type} (E : Env ε) (st : Resolver × ε)
    (sol : Solution) (num : Nat) :
    (apply_solution E st sol num).2.1.max_ai_iterations =
      st.1.max_ai_iterations := by
  simp only [apply_solution]
  repeat' split
  all_goals simp

@[simp] theorem apply_solution_web {ε : Type} (E : Env ε) (st : Resolver × ε)
    (sol : Solution) (num : Nat) :
    (apply_solution E st sol num).2.1.web_search_count =
      st.1.web_search_count := by
  simp only [apply_solution]
  repeat' split
  all_goals simp

/-- apply_solution appends exactly the history entry of solution.py
lines 359-364, built from the pre-execution state, whatever the commands
later do. -/
theorem apply_solution_hist {ε : Type} (E : Env ε) (st : Resolver × ε)
    (sol : Solution) (num : Nat) :
    (apply_solution E st sol num).2.1.solution_history =
      st.1.solution_history ++
        [⟨num, sol.description, sol.commands, E.now st.2⟩] := by
  simp only [apply_solution]
  repeat' split
  all_goals simp

@[simp] theorem applyPass_count {ε : Type} (E : Env ε) :
    ∀ (sols : List Solution) (i succ cf : Nat) (failed : List FailedCmd)
      (st : Resolver × ε),
      (passStateOf (applyPass E sols i succ cf failed st)).1.ai_consultation_count =
        st.1.ai_consultation_count := by
  intro sols
  induction sols with
  | nil => intro i succ cf failed st; rfl
  | cons s ss ih =>
    intro i succ cf failed st
    simp only [applyPass]
    split
    · split
      · simp [passStateOf]
      · rw [ih]; simp
    · rw [ih]; simp

@[simp] theorem applyPass_max {ε : Type} (E : Env ε) :
    ∀ (sols : List Solution) (i succ cf : Nat) (failed : List FailedCmd)
      (st : Resolver × ε),
      (passStateOf (applyPass E sols i succ cf failed st)).1.max_ai_iterations =
        st.1.max_ai_iterations := by
  intro sols
  induction sols with
  | nil => intro i succ cf failed st; rfl
  | cons s ss ih =>
    intro i succ cf failed st
    simp only [applyPass]
    split
    · split
      · simp [passStateOf]
      · rw [ih]; simp
    · rw [ih]; simp

/-- A pass that returns through the early self.solved path carries
solved = true. -/
theorem applyPass_solvedNow {ε : Type} (E : Env ε) :
    ∀ (sols : List Solution) (i succ cf : Nat) (failed : List FailedCmd)
      (st st1 : Resolver × ε),
      applyPass E sols i succ cf failed st = .solvedNow st1 → st1.1.solved = true := by
  intro sols
  induction sols with
  | nil => intro i succ cf failed st st1 h; nomatch h
  | cons s ss ih =>
    intro i succ cf failed st st1 h
    simp only [applyPass] at h
    split at h
    · split at h
      · cases h; rfl
      · exact ih _ _ _ _ _ _ h
    · exact ih _ _ _ _ _ _ h

/-- The budget guard of trigger_web_search_consultation (solution.py,
lines 169-171): an exhausted budget returns None before any mutation. -/
theorem trigger_guard {ε : Type} (E : Env ε) (hasAI : Bool) (st : Resolver × ε)
    (h : st.1.max_ai_iterations ≤ st.1.ai_consultation_count) :
    trigger_web_search_consultation E hasAI st = (none, st) := by
  cases hb : (!hasAI) <;> simp [trigger_web_search_consultation, hb, h]

/-- A consultation attempt past both guards increments both counters by
exactly one (solution.py, lines 173-174), whatever the oracle answers. -/
theorem trigger_increment {ε : Type} (E : Env ε) (st : Resolver × ε)
    (h : st.1.ai_consultation_count < st.1.max_ai_iterations) :
    (trigger_web_search_consultation E true st).2.1.ai_consultation_count =
      st.1.ai_consultation_count + 1 ∧
    (trigger_web_search_consultation E true st).2.1.web_search_count =
      st.1.web_search_count + 1 := by
  simp only [trigger_web_search_consultation]
  rw [if_neg (by simp), if_neg (Nat.not_le.mpr h)]
  exact ⟨rfl, rfl⟩

theorem trigger_count_le {ε : Type} (E : Env ε) (hasAI : Bool) (st : Resolver × ε)
    (h : st.1.ai_consultation_count ≤ st.1.max_ai_iterations) :
    (trigger_web_search_consultation E hasAI st).2.1.ai_consultation_count ≤
      (trigger_web_search_consultation E hasAI st).2.1.max_ai_iterations := by
  simp only [trigger_web_search_consultation]
  split
  · exact h
  · split
    · exact h
    · next hg =>
      show st.1.ai_consultation_count + 1 ≤ st.1.max_ai_iterations
      omega

@[simp] theorem trigger_max {ε : Type} (E : Env ε) (hasAI : Bool)
    (st : Resolver × ε) :
    (trigger_web_search_consultation E hasAI st).2.1.max_ai_iterations =
      st.1.max_ai_iterations := by
  simp only [trigger_web_search_consultation]
  split
  · rfl
  · split <;> rfl

theorem loop_iter_count_le {ε : Type} (E : Env ε) (hasAI : Bool)
    (sols : List Solution) (cf : Nat) (st : Resolver × ε)
    (h : st.1.ai_consultation_count ≤ st.1.max_ai_iterations) :
    (iterStateOf (loop_iter E hasAI sols cf st)).1.ai_consultation_count ≤
      (iterStateOf (loop_iter E hasAI sols cf st)).1.max_ai_iterations := by
  simp only [loop_iter]
  split
  · exact h
  · cases heq : applyPass E sols 1 0 cf [] st with
    | solvedNow st1 =>
      have hc := applyPass_count E sols 1 0 cf [] st
      have hm := applyPass_max E sols 1 0 cf [] st
      rw [heq] at hc hm
      simp only [passStateOf] at hc hm
      simp only [iterStateOf, hc, hm]
      exact h
    | done succ cf1 failed st1 =>
      have hc := applyPass_count E sols 1 0 cf [] st
      have hm := applyPass_max E sols 1 0 cf [] st
      rw [heq] at hc hm
      simp only [passStateOf] at hc hm
      have h1 : st1.1.ai_consultation_count ≤ st1.1.max_ai_iterations := by
        rw [hc, hm]; exact h
      have h2 := trigger_count_le E hasAI st1 h1
      simp only []
      repeat' split
      all_goals simp only [iterStateOf]
      all_goals first | exact h1 | exact h2

theorem loop_iter_max {ε : Type} (E : Env ε) (hasAI : Bool)
    (sols : List Solution) (cf : Nat) (st : Resolver × ε) :
    (iterStateOf (loop_iter E hasAI sols cf st)).1.max_ai_iterations =
      st.1.max_ai_iterations := by
  simp only [loop_iter]
  split
  · rfl
  · cases heq : applyPass E sols 1 0 cf [] st with
    | solvedNow st1 =>
      have hm := applyPass_max E sols 1 0 cf [] st
      rw [heq] at hm
      simpa only [passStateOf, iterStateOf] using hm
    | done succ cf1 failed st1 =>
      have hm := applyPass_max E sols 1 0 cf [] st
      rw [heq] at hm
      simp only [passStateOf] at hm
      have h2 := trigger_max E hasAI st1
      simp only []
      repeat' split
      all_goals simp only [iterStateOf]
      all_goals first | exact hm | exact h2.trans hm

/-- A loop body that returns True does so through the solved path. -/
theorem loop_iter_ret_true {ε : Type} (E : Env ε) (hasAI : Bool)
    (sols : List Solution) (cf : Nat) (st st1 : Resolver × ε)
    (h : loop_iter E hasAI sols cf st = .ret true st1) : st1.1.solved = true := by
  simp only [loop_iter] at h
  split at h
  · simp at h
  · cases heq : applyPass E sols 1 0 cf [] st with
    | solvedNow st2 =>
      rw [heq] at h
      cases h
      exact applyPass_solvedNow E sols 1 0 cf [] st _ heq
    | done succ cf1 failed st2 =>
      rw [heq] at h
      simp only [] at h
      repeat' split at h
      all_goals simp at h

theorem loopAux_count_le {ε : Type} (E : Env ε) (hasAI : Bool) :
    ∀ (fuel : Nat) (sols : List Solution) (cf : Nat) (st : Resolver × ε),
      st.1.ai_consultation_count ≤ st.1.max_ai_iterations →
      (loopAux E hasAI fuel sols cf st).2.1.ai_consultation_count ≤
        (loopAux E hasAI fuel sols cf st).2.1.max_ai_iterations := by
  intro fuel
  induction fuel with
  | zero => intro sols cf st h; exact h
  | succ fuel ih =>
    intro sols cf st h
    simp only [loopAux]
    split
    · exact h
    · cases heq : loop_iter E hasAI sols cf st with
      | ret b st1 =>
        have := loop_iter_count_le E hasAI sols cf st h
        rw [heq] at this
        simpa only [iterStateOf] using this
      | next sols1 cf1 st1 =>
        have := loop_iter_count_le E hasAI sols cf st h
        rw [heq] at this
        simp only [iterStateOf] at this
        exact ih sols1 cf1 st1 this

theorem loopAux_max {ε : Type} (E : Env ε) (hasAI : Bool) :
    ∀ (fuel : Nat) (sols : List Solution) (cf : Nat) (st : Resolver × ε),
      (loopAux E hasAI fuel sols cf st).2.1.max_ai_iterations =
        st.1.max_ai_iterations := by
  intro fuel
  induction fuel with
  | zero => intro sols cf st; rfl
  | succ fuel ih =>
    intro sols cf st
    simp only [loopAux]
    split
    · rfl
    · cases heq : loop_iter E hasAI sols cf st with
      | ret b st1 =>
        have := loop_iter_max E hasAI sols cf st
        rw [heq] at this
        simpa only [iterStateOf] using this
      | next sols1 cf1 st1 =>
        have := loop_iter_max E hasAI sols cf st
        rw [heq] at this
        simp only [iterStateOf] at this
        exact (ih sols1 cf1 st1).trans this

/-- A while loop that returns True leaves solved = true in the state. -/
theorem loopAux_true {ε : Type} (E : Env ε) (hasAI : Bool) :
    ∀ (fuel : Nat) (sols : List Solution) (cf : Nat) (st st1 : Resolver × ε),
      loopAux E hasAI fuel sols cf st = (true, st1) → st1.1.solved = true := by
  intro fuel
  induction fuel with
  | zero => intro sols cf st st1 h; simp [loopAux] at h
  | succ fuel ih =>
    intro sols cf st st1 h
    simp only [loopAux] at h
    split at h
    · simp at h
    · cases heq : loop_iter E hasAI sols cf st with
      | ret b st2 =>
        rw [heq] at h
        injection h with hb hs
        subst hs
        rw [hb] at heq
        exact loop_iter_ret_true E hasAI sols cf st st2 heq
      | next sols1 cf1 st2 =>
        rw [heq] at h
        exact ih sols1 cf1 st2 st1 h

theorem headMatches_iff : ∀ (pat s : List Char),
    headMatches pat s = true ↔ ∃ t, s = pat ++ t := by
  intro pat
  induction pat with
  | nil => intro s; simp [headMatches]
  | cons a as ih =>
    intro s
    cases s with
    | nil =>
      simp [headMatches]
    | cons b bs =>
      simp only [headMatches, Bool.and_eq_true, beq_iff_eq]
      constructor
      · rintro ⟨hab, h⟩
        obtain ⟨t, rfl⟩ := (ih bs).mp h
        subst hab
        exact ⟨t, rfl⟩
      · rintro ⟨t, ht⟩
        injection ht with h1 h2
        exact ⟨h1.symm, (ih bs).mpr ⟨t, h2⟩⟩

theorem occursIn_iff (pat : List Char) : ∀ (s : List Char),
    occursIn pat s = true ↔ ∃ p q, s = p ++ pat ++ q := by
  intro s
  induction s with
  | nil =>
    simp only [occursIn]
    constructor
    · intro h
      have hp : pat = [] := List.isEmpty_iff.mp h
      exact ⟨[], [], by simp [hp]⟩
    · rintro ⟨p, q, hpq⟩
      have h1 := (List.append_eq_nil.mp hpq.symm).1
      have h2 := (List.append_eq_nil.mp h1).2
      simp [h2]
  | cons c rest ih =>
    simp only [occursIn, Bool.or_eq_true]
    constructor
    · rintro (h | h)
      · obtain ⟨t, ht⟩ := (headMatches_iff pat (c :: rest)).mp h
        exact ⟨[], t, by simpa using ht⟩
      · obtain ⟨p, q, rfl⟩ := ih.mp h
        exact ⟨c :: p, q, rfl⟩
    · rintro ⟨p, q, hpq⟩
      cases p with
      | nil =>
        exact Or.inl ((headMatches_iff pat (c :: rest)).mpr ⟨q, by simpa using hpq⟩)
      | cons x p =>
        injection hpq with h1 h2
        exact Or.inr (ih.mpr ⟨p, q, h2⟩)

theorem hasErrorMarker_iff (output : String) :
    hasErrorMarker output = false ↔
      ∀ m ∈ failure_markers, ¬ ∃ p q, (pyLower output).data = p ++ m.data ++ q := by
  constructor
  · intro h m hm hex
    have h1 : occursIn m.data (pyLower output).data = true := (occursIn_iff _ _).mpr hex
    have h2 : hasErrorMarker output = true := List.any_eq_true.mpr ⟨m, hm, h1⟩
    rw [h] at h2
    exact Bool.false_ne_true h2
  · intro h
    cases hb : hasErrorMarker output with
    | false => rfl
    | true =>
      exfalso
      obtain ⟨m, hm, hocc⟩ := List.any_eq_true.mp hb
      exact h m hm ((occursIn_iff _ _).mp hocc)

theorem pyFind_not_mem (s : String) (c : Char) (h : c ∉ s.data) : pyFind s c = -1 := by
  have hn : s.data.findIdx? (· == c) = none :=
    List.findIdx?_eq_none_iff.mpr fun x hx =>
      beq_eq_false_iff_ne.mpr fun hxc => h (hxc ▸ hx)
  simp [pyFind, hn]

theorem applyCalls_length {ε : Type} (E : Env ε) :
    ∀ (calls : List (Solution × Nat)) (st : Resolver × ε),
      (applyCalls E calls st).1.solution_history.length =
        st.1.solution_history.length + calls.length := by
  intro calls
  induction calls with
  | nil => intro st; simp [applyCalls]
  | cons sn rest ih =>
    intro st
    simp only [applyCalls]
    rw [ih, apply_solution_hist]
    simp only [List.length_append, List.length_cons, List.length_nil]
    omega

theorem runCommands_exit_one {ε : Type} (E : Env ε) :
    ∀ (cs : List String) (ok : Bool) (failed : List FailedCmd) (st : Resolver × ε),
      (∀ f ∈ failed, f.exit_code = 1) →
      ∀ f ∈ (runCommands E cs ok failed st).2.1, f.exit_code = 1 := by
  intro cs
  induction cs with
  | nil => intro ok failed st h; exact h
  | cons c cs ih =>
    intro ok failed st h
    simp only [runCommands]
    split
    · exact ih _ _ _ h
    · refine ih _ _ _ ?_
      intro f hf
      rcases List.mem_append.mp hf with h1 | h2
      · exact h f h1
      · rw [List.mem_singleton.mp h2]

/-- C1, corrected, counterexample: on a diagnosis whose overall_status is
success, main exits with code 0 while the session solved flag stays false,
so the persisted resolution_status is INCOMPLETE, not SOLVED - the claimed
equivalence between exit code 0 and the solved flag fails. -/
theorem C1_counterexample :
    mainExitCode envTimeout true (some diagSuccess) 8 () = 0 ∧
    resolution_status (mainFinalResolver envTimeout true (some diagSuccess) 8 ()) =
      "INCOMPLETE" :=
  ⟨rfl, rfl⟩

/-- C1, amended: main exits with code 0 exactly when
continuous_resolution_loop returns True, and a True return means either
the initial diagnosis was already success (with the solved flag left
false) or the session ended with solved = true; the exit code tracks the
loop result, not the persisted resolution_status. -/
theorem C1_exit_code_amended {ε : Type} (E : Env ε) (hasAI : Bool)
    (data : Option Diagnosis) (maxAI : Nat) (e0 : ε) :
    (mainExitCode E hasAI data maxAI e0 = 0 ↔
      (continuous_resolution_loop E hasAI data (initResolver maxAI, e0)).1 = true) ∧
    ((continuous_resolution_loop E hasAI data (initResolver maxAI, e0)).1 = true →
      (∃ d, data = some d ∧ d.overall_status = some "success") ∨
        (continuous_resolution_loop E hasAI data
          (initResolver maxAI, e0)).2.1.solved = true) := by
  constructor
  · by_cases hb : (continuous_resolution_loop E hasAI data (initResolver maxAI, e0)).1 = true
    · simp [mainExitCode, hb]
    · simp [mainExitCode, hb]
  · intro h
    cases data with
    | none => simp [continuous_resolution_loop] at h
    | some d =>
      by_cases h1 : (d.overall_status == some "success") = true
      · exact Or.inl ⟨d, rfl, by simpa using h1⟩
      · right
        by_cases h2 : d.recommended_solutions.isEmpty = true
        · exfalso
          simp only [continuous_resolution_loop, if_neg h1, if_pos h2] at h
          simp at h
        · simp only [continuous_resolution_loop, if_neg h1, if_neg h2] at h ⊢
          have hx : loopAux E hasAI 20
              (sortByPriority (d.recommended_solutions.filter
                (fun s => s.solution_type == "commands"))) 0 (initResolver maxAI, e0) =
              (true, (loopAux E hasAI 20
                (sortByPriority (d.recommended_solutions.filter
                  (fun s => s.solution_type == "commands"))) 0
                (initResolver maxAI, e0)).2) := by
            rw [← h]
          exact loopAux_true E hasAI 20 _ 0 _ _ hx

/-- C1, amended, witness: instantiation on the success diagnosis. -/
theorem C1_exit_code_amended_witness :
    (∃ d, some diagSuccess = some d ∧ d.overall_status = some "success") ∨
      (continuous_resolution_loop envTimeout true (some diagSuccess)
        (initResolver 8, ())).2.1.solved = true :=
  (C1_exit_code_amended envTimeout true (some diagSuccess) 8 ()).2 (by decide)

/-- C2: the consultation budget is a hard ceiling. An attempt with
ai_consultation_count at or past max_ai_iterations returns none and
leaves the whole state untouched; an attempt past the guard increments
ai_consultation_count (and web_search_count) by exactly 1 whatever the
oracle answers; the invariant ai_consultation_count at most
max_ai_iterations is preserved by every attempt and holds for the final
state of every full run started from the initial state. -/
theorem C2_consultation_budget {ε : Type} (E : Env ε) (hasAI : Bool)
    (st : Resolver × ε) :
    (st.1.max_ai_iterations ≤ st.1.ai_consultation_count →
      trigger_web_search_consultation E hasAI st = (none, st)) ∧
    (hasAI = true → st.1.ai_consultation_count < st.1.max_ai_iterations →
      (trigger_web_search_consultation E hasAI st).2.1.ai_consultation_count =
        st.1.ai_consultation_count + 1 ∧
      (trigger_web_search_consultation E hasAI st).2.1.web_search_count =
        st.1.web_search_count + 1) ∧
    (st.1.ai_consultation_count ≤ st.1.max_ai_iterations →
      (trigger_web_search_consultation E hasAI st).2.1.ai_consultation_count ≤
        (trigger_web_search_consultation E hasAI st).2.1.max_ai_iterations) ∧
    (∀ (data : Option Diagnosis) (m : Nat) (e0 : ε),
      (continuous_resolution_loop E hasAI data
        (initResolver m, e0)).2.1.ai_consultation_count ≤ m) := by
  refine ⟨trigger_guard E hasAI st, ?_, trigger_count_le E hasAI st, ?_⟩
  · rintro rfl hlt
    exact trigger_increment E st hlt
  · intro data m e0
    cases data with
    | none => exact Nat.zero_le m
    | some d =>
      by_cases h1 : (d.overall_status == some "success") = true
      · simp only [continuous_resolution_loop, if_pos h1]
        exact Nat.zero_le m
      · by_cases h2 : d.recommended_solutions.isEmpty = true
        · simp only [continuous_resolution_loop, if_neg h1, if_pos h2]
          exact Nat.zero_le m
        · simp only [continuous_resolution_loop, if_neg h1, if_neg h2]
          have h0 : (initResolver m, e0).1.ai_consultation_count ≤
              (initResolver m, e0).1.max_ai_iterations := Nat.zero_le m
          have hle := loopAux_count_le E hasAI 20
            (sortByPriority (d.recommended_solutions.filter
              (fun s => s.solution_type == "commands"))) 0 (initResolver m, e0) h0
          have hmax := loopAux_max E hasAI 20
            (sortByPriority (d.recommended_solutions.filter
              (fun s => s.solution_type == "commands"))) 0 (initResolver m, e0)
          rw [hmax] at hle
          exact hle

/-- C2, witness: with the budget already exhausted (0 of 0), the attempt
returns none and changes nothing. -/
theorem C2_consultation_budget_witness :
    trigger_web_search_consultation envTimeout true (initResolver 0, ()) =
      (none, (initResolver 0, ())) :=
  (C2_consultation_budget envTimeout true (initResolver 0, ())).1 (Nat.le_refl 0)

/-- C3, corrected, counterexample: a timed-out command and a command whose
execution raised leave the execution log empty - no ExecutionLogEntry is
appended for these outcomes, against the claim that every invocation
appends exactly one entry. -/
theorem C3_counterexample :
    (execute_command .timedOut "t" (initResolver 8) "cmd" "").2.2.execution_log = [] ∧
    (execute_command (.raised "boom") "t" (initResolver 8) "cmd" "").2.2.execution_log
      = [] :=
  ⟨rfl, rfl⟩

/-- C3, amended: an invocation of the Command Runner that completes
without timeout appends exactly one ExecutionLogEntry; the timeout and
exception outcomes return a failure result and append nothing. -/
theorem C3_logging_amended (o : CmdOutcome) (ts : String) (r : Resolver)
    (c d : String) :
    (∀ code so se, o = .completed code so se →
      (execute_command o ts r c d).2.2.execution_log =
        r.execution_log ++
          [⟨c, (code == 0) && !hasErrorMarker (so ++ se), so ++ se, code, ts, d⟩]) ∧
    (o = .timedOut → execute_command o ts r c d = (false, "Command timeout", r)) ∧
    (∀ m, o = .raised m → execute_command o ts r c d = (false, m, r)) := by
  refine ⟨?_, ?_, ?_⟩
  · rintro code so se rfl; rfl
  · rintro rfl; rfl
  · rintro m rfl; rfl

/-- C3, amended, witness: the timeout branch on a concrete input. -/
theorem C3_logging_amended_witness :
    execute_command .timedOut "t" (initResolver 8) "cmd" "" =
      (false, "Command timeout", initResolver 8) :=
  (C3_logging_amended .timedOut "t" (initResolver 8) "cmd" "").2.1 rfl

/-- C4, corrected, counterexample: applying a user_action solution yields
(false, []) - the same success flag and shape as a failure, with no
distinct not-applicable outcome - and a pass over a queue holding that
solution raises consecutive_failures from 0 to 1, counting it as a failed
attempt. -/
theorem C4_counterexample :
    (apply_solution envTimeout (initResolver 8, ()) solUA 1).1 = (false, []) ∧
    passCF (applyPass envTimeout [solUA] 1 0 0 [] (initResolver 8, ())) = some 1 :=
  ⟨rfl, rfl⟩

/-- C4, amended: for a solution whose solution_type is not commands, apply
runs no main and no verification command (its only effects are the history
entry and the undo commands) and reports (false, []) - a result
indistinguishable from a failure; the loop counts any false result as a
failed attempt, but its queues are pre-filtered to commands-type
solutions, so such a solution never reaches apply from the loop. -/
theorem C4_not_applicable_amended {ε : Type} (E : Env ε) (st : Resolver × ε)
    (sol : Solution) (num : Nat) (h : sol.solution_type ≠ "commands") :
    (apply_solution E st sol num).1 = (false, []) ∧
    (apply_solution E st sol num).2 =
      runUndo E sol.undo_commands
        ({ st.1 with solution_history := st.1.solution_history ++
            [⟨num, sol.description, sol.commands, E.now st.2⟩] }, st.2) := by
  have hb : (sol.solution_type == "commands") = false := beq_eq_false_iff_ne.mpr h
  constructor <;> simp [apply_solution, hb]

/-- C4, amended, witness: instantiation on the user_action solution. -/
theorem C4_not_applicable_amended_witness :
    (apply_solution envTimeout (initResolver 8, ()) solUA 1).1 = (false, []) :=
  (C4_not_applicable_amended envTimeout (initResolver 8, ()) solUA 1 (by decide)).1

/-- C5, corrected, counterexample: the first consultation returns a
payload carrying both an actionable commands solution and
should_continue = false; the loop nevertheless installs the new solution
and keeps going - it executes cmdB in a second pass and spends a second
consultation, so the final state shows 2 consultations and both commands
executed instead of stopping after the first consultation. -/
theorem C5_counterexample :
    (continuous_resolution_loop envFailThenAdvice true (some diagOneSolution)
        (initResolver 8, 0)).2.1.ai_consultation_count = 2 ∧
    ((continuous_resolution_loop envFailThenAdvice true (some diagOneSolution)
        (initResolver 8, 0)).2.1.execution_log.map LogEntry.command) =
      ["cmdA", "cmdB"] := by
  exact ⟨by decide, by decide⟩

/-- C5, amended: after a zero-success pass with AI available, a decoded
payload with should_continue = false stops the loop only when it carries
no actionable commands solutions; when its filtered commands solutions are
non-empty the loop installs them and continues with the next body,
ignoring should_continue. -/
theorem C5_stop_signal_amended {ε : Type} (E : Env ε) (sols : List Solution)
    (cf cf1 : Nat) (failed : List FailedCmd) (st st1 st2 : Resolver × ε)
    (p : Payload)
    (hne : sols.isEmpty = false)
    (hpass : applyPass E sols 1 0 cf [] st = .done 0 cf1 failed st1)
    (htr : trigger_web_search_consultation E true st1 = (some p, st2)) :
    (∀ lst, p.recommended_solutions = some lst →
      (lst.filter (fun s => s.solution_type == "commands")).isEmpty = false →
      loop_iter E true sols cf st =
        .next (lst.filter (fun s => s.solution_type == "commands")) 0 st2) ∧
    (((p.recommended_solutions.getD []).filter
        (fun s => s.solution_type == "commands")) = [] →
      p.should_continue = some false →
      loop_iter E true sols cf st = .ret false st2) := by
  have hcond : ¬(sols.isEmpty = true) := by simp [hne]
  constructor
  · intro lst hrec hfe
    simp only [loop_iter]
    rw [if_neg hcond]
    simp [hpass, htr, hrec, hfe]
  · intro hfe hsc
    cases hrec : p.recommended_solutions with
    | none =>
      simp only [loop_iter]
      rw [if_neg hcond]
      simp [hpass, htr, hrec, hsc]
    | some lst =>
      rw [hrec] at hfe
      simp only [Option.getD_some] at hfe
      simp only [loop_iter]
      rw [if_neg hcond]
      simp [hpass, htr, hrec, hfe, hsc]

/-- C5, amended, witness: the continue branch on the concrete failing run,
where the payload also says should_continue = false. -/
theorem C5_stop_signal_amended_witness :
    loop_iter envFailThenAdvice true [solA] 0 (initResolver 8, 0) =
      .next [solB] 0 (afterConsultA, 1) :=
  (C5_stop_signal_amended envFailThenAdvice [solA] 0 1 [⟨"cmdA", "x", 1⟩]
    (initResolver 8, 0) (afterPassA, 0) (afterConsultA, 1) payloadAdvise
    (by decide) (by decide) (by decide)).1 [solB] (by decide) (by decide)

/-- C6: every apply_solution call appends exactly one history entry, whose
content (ordinal, description, commands, timestamp read before execution)
does not depend on anything the commands later do; consequently after any
sequence of apply calls the history length equals the starting length plus
the number of calls, whatever each call's outcome. -/
theorem C6_history_invariant {ε : Type} (E : Env ε) (st : Resolver × ε)
    (sol : Solution) (num : Nat) :
    ((apply_solution E st sol num).2.1.solution_history =
      st.1.solution_history ++ [⟨num, sol.description, sol.commands, E.now st.2⟩]) ∧
    (∀ (calls : List (Solution × Nat)),
      (applyCalls E calls st).1.solution_history.length =
        st.1.solution_history.length + calls.length) :=
  ⟨apply_solution_hist E st sol num, fun calls => applyCalls_length E calls st⟩

/-- C7: a completed command is judged successful exactly when its exit
code is zero and the lower-cased combined stdout+stderr contains none of
the failure markers as a substring; in particular exit code 0 with a
marker in the output is judged failed. -/
theorem C7_success_criterion (code : Int) (so se ts c d : String) (r : Resolver) :
    (execute_command (.completed code so se) ts r c d).1 = true ↔
      (code = 0 ∧ ∀ m ∈ failure_markers,
        ¬ ∃ p q, (pyLower (so ++ se)).data = p ++ m.data ++ q) := by
  simp only [execute_command, Bool.and_eq_true, Bool.not_eq_true', beq_iff_eq]
  exact and_congr_right fun _ => hasErrorMarker_iff (so ++ se)

/-- C7, witness: a clean exit on a concrete input satisfies both sides. -/
theorem C7_success_criterion_witness :
    (0 : Int) = 0 ∧ ∀ m ∈ failure_markers,
      ¬ ∃ p q, (pyLower ("ok" ++ "")).data = p ++ m.data ++ q :=
  (C7_success_criterion 0 "ok" "" "t" "cmd" "" (initResolver 8)).mp (by decide)

/-- C8: the decoder is total with the specified fallback order - a
successful strict parse is returned as-is; otherwise the substring from
the first opening brace to the last closing brace is parsed; if the strict
parse fails and the brace window is absent, ill-formed, or also fails to
parse, the result is the sentinel whose overall_status is critical_error
and whose raw_response is the input verbatim; in particular the strict
parse failing on input with no opening brace always yields the sentinel. -/
theorem C8_decoder_fallback {J : Type} (parse : String → Option J) (text : String) :
    (∀ v, parse text = some v → safe_json_parse parse text = DecodeOut.ok v) ∧
    (parse text = none →
      ((pyFind text '{' != -1 && pyRfind text '}' + 1 > pyFind text '{') = true) →
      ∀ v, parse (strSlice text (pyFind text '{').toNat
          (pyRfind text '}' + 1).toNat) = some v →
        safe_json_parse parse text = DecodeOut.ok v) ∧
    (parse text = none →
      (((pyFind text '{' != -1 && pyRfind text '}' + 1 > pyFind text '{') = false) ∨
        parse (strSlice text (pyFind text '{').toNat
          (pyRfind text '}' + 1).toNat) = none) →
      safe_json_parse parse text = DecodeOut.err (mkSentinel text) ∧
      (mkSentinel text).overall_status = "critical_error" ∧
      (mkSentinel text).raw_response = text) ∧
    ('{' ∉ text.data → parse text = none →
      safe_json_parse parse text = DecodeOut.err (mkSentinel text)) := by
  refine ⟨?_, ?_, ?_, ?_⟩
  · intro v hv
    simp [safe_json_parse, hv]
  · intro hn hc v hv
    simp [safe_json_parse, hn, hc, hv]
  · intro hn hor
    refine ⟨?_, rfl, rfl⟩
    cases hor with
    | inl hc => simp [safe_json_parse, hn, hc]
    | inr hv =>
      cases hc : (pyFind text '{' != -1 && pyRfind text '}' + 1 > pyFind text '{') with
      | true => simp [safe_json_parse, hn, hc, hv]
      | false => simp [safe_json_parse, hn, hc]
  · intro hmem hn
    have hfind : pyFind text '{' = -1 := pyFind_not_mem text '{' hmem
    have hc : (pyFind text '{' != -1 && pyRfind text '}' + 1 > pyFind text '{')
        = false := by
      rw [hfind]; simp
    simp [safe_json_parse, hn, hc]

/-- C8, witness: a failing parser on brace-free input yields the sentinel. -/
theorem C8_decoder_fallback_witness :
    safe_json_parse parseNone "abc" = DecodeOut.err (mkSentinel "abc") :=
  (C8_decoder_fallback parseNone "abc").2.2.2 (by decide) rfl

/-- C9: a diagnosis whose overall_status is success makes the loop return
True immediately with the fresh session state untouched - empty execution
log and zero consultations. -/
theorem C9_success_shortcut {ε : Type} (E : Env ε) (hasAI : Bool) (d : Diagnosis)
    (maxAI : Nat) (e0 : ε) (h : d.overall_status = some "success") :
    continuous_resolution_loop E hasAI (some d) (initResolver maxAI, e0) =
      (true, (initResolver maxAI, e0)) ∧
    (initResolver maxAI).execution_log = [] ∧
    (initResolver maxAI).ai_consultation_count = 0 := by
  refine ⟨?_, rfl, rfl⟩
  simp [continuous_resolution_loop, h]

/-- C9, witness: instantiation on the concrete success diagnosis. -/
theorem C9_success_shortcut_witness :
    continuous_resolution_loop envTimeout true (some diagSuccess)
        (initResolver 8, ()) = (true, (initResolver 8, ())) ∧
    (initResolver 8).execution_log = [] ∧
    (initResolver 8).ai_consultation_count = 0 :=
  C9_success_shortcut envTimeout true diagSuccess 8 () rfl

/-- C10: every entry of the failedCommands list returned by apply carries
the constant exit code 1, whatever the real process exit codes were. -/
theorem C10_failed_exit_code {ε : Type} (E : Env ε) (st : Resolver × ε)
    (sol : Solution) (num : Nat) :
    ∀ f ∈ (apply_solution E st sol num).1.2, f.exit_code = 1 := by
  intro f hf
  simp only [apply_solution] at hf
  repeat' split at hf
  all_goals try simp only [] at hf
  all_goals first
    | exact absurd hf (by simp)
    | exact runCommands_exit_one E sol.commands true [] _ (by simp) f hf

/-- C10, witness: a command that exits 0 but prints a failure marker is
collected with the constant exit code 1, hiding the real exit code 0. -/
theorem C10_failed_exit_code_witness :
    (⟨"cmdA", "error: boom", 1⟩ : FailedCmd) ∈
      (apply_solution envMarkerFail (initResolver 8, ()) solA 1).1.2 ∧
    FailedCmd.exit_code ⟨"cmdA", "error: boom", 1⟩ = 1 :=
  ⟨by decide,
    C10_failed_exit_code envMarkerFail (initResolver 8, ()) solA 1 _ (by decide)⟩

end PPD
